import Mathlib

/-!
Verification of the Trail Explorer repository: a shallow embedding of the
Overpass query builder, trail classifier, result formatter, area-search tool
(`src/server/trail_mcp_server.py`) and of the LLM orchestration loop
(`src/app/llm_mcp_connector.py`), with theorems settling the specification
claims about them.

Python dictionaries with string keys are embedded as association lists
(`List (String × String)`), `dict.get(k, d)` as first-match lookup with a
default, Python floats used only for coordinate comparison as `ℚ`, and
Python exceptions as `Except String`.
-/

namespace TrailExplorer

/-- First-match association-list lookup, embedding Python `dict.get(key)`
(returning `none` when the key is absent). -/
def assocLookup {α : Type} (key : String) : List (String × α) → Option α
  | [] => none
  | (k, v) :: rest => if k = key then some v else assocLookup key rest

/-- OSM tags of one element: embedding of the Python `tags` dict. -/
def Tags : Type := List (String × String)

instance : DecidableEq Tags := by
  unfold Tags
  infer_instance

/-- Embedding of Python `tags.get(key, default)`. -/
def tagGet (tags : Tags) (key dflt : String) : String :=
  (assocLookup key tags).getD dflt

/-- Embedding of Python `tags.get(key)` (default `None`). -/
def tagOpt (tags : Tags) (key : String) : Option String :=
  assocLookup key tags

/-- Embedding of the `Config` dataclass of `trail_mcp_server.py`
(the `timeout` float is carried as a rational; only comparisons matter). -/
structure Config where
  overpass_url : String := "https://overpass-api.de/api/interpreter"
  timeout : ℚ := 60
  max_trails_display : Nat := 50
  query_timeout : Nat := 30

/-- The module-level `config = Config()` instance. -/
def config : Config := {}

/-- Embedding of the `TrailType` enum. -/
inductive TrailType
  | HIKING
  | BIKING
  | WALKING
deriving DecidableEq, Repr

/-- Embedding of the Python enum's string value. -/
def TrailType.value : TrailType → String
  | .HIKING => "hiking"
  | .BIKING => "biking"
  | .WALKING => "walking"

/-- The per-category tag mapping stored in `TRAIL_TYPES` (one value of the
Python dict). -/
structure TrailTags where
  route : List String
  highway : List String
  foot : Option String
  bicycle : Option String
  access_exclude : List String
deriving DecidableEq, Repr

/-- Embedding of the module-level `TRAIL_TYPES` dict, in declaration order
(Python dicts preserve insertion order). -/
def TRAIL_TYPES : List (String × TrailTags) :=
  [ (TrailType.HIKING.value,
      { route := ["hiking", "foot"]
        highway := ["footway", "path", "track", "bridleway", "steps"]
        foot := some "yes"
        bicycle := none
        access_exclude := ["private", "no"] })
  , (TrailType.BIKING.value,
      { route := ["bicycle", "mtb"]
        highway := ["cycleway", "path", "track"]
        foot := none
        bicycle := some "yes"
        access_exclude := ["private", "no"] })
  , (TrailType.WALKING.value,
      { route := ["walking", "foot"]
        highway := ["footway", "pedestrian", "path", "steps"]
        foot := some "yes"
        bicycle := none
        access_exclude := ["private", "no"] }) ]

/-- Embedding of `list(TRAIL_TYPES.keys())`. -/
def trailTypeKeys : List String := TRAIL_TYPES.map Prod.fst

/-- Embedding of `identify_trail_type` from `trail_mcp_server.py`:
classifies an element's tags into a trail-type value or `none`. -/
def identify_trail_type (tags : Tags) : Option String :=
  let route := tagGet tags "route" ""
  let highway := tagGet tags "highway" ""
  if route ∈ ["hiking", "foot"] then
    some TrailType.HIKING.value
  else if route ∈ ["bicycle", "mtb"] then
    some TrailType.BIKING.value
  else if route ∈ ["walking"] then
    some TrailType.WALKING.value
  else if highway ∈ ["cycleway"] ∨ tagOpt tags "bicycle" = some "yes" then
    some TrailType.BIKING.value
  else if highway ∈ ["footway", "pedestrian"] ∨ tagOpt tags "foot" = some "yes" then
    some TrailType.HIKING.value
  else if highway ∈ ["path", "track"] then
    if tagOpt tags "bicycle" = some "yes" then
      some TrailType.BIKING.value
    else
      some TrailType.HIKING.value
  else
    none

/-- Embedding of `validate_trail_types`: `None` yields all category keys; a
present list is filtered to known keys and an empty remainder raises
`ValueError` (embedded as `Except.error` with the message). -/
def validate_trail_types (trail_types : Option (List String)) : Except String (List String) :=
  match trail_types with
  | none => .ok trailTypeKeys
  | some ts =>
    let valid_types := ts.filter (fun t => (assocLookup t TRAIL_TYPES).isSome)
    if valid_types = [] then
      .error "No valid trail types specified. Use: hiking, biking, or walking"
    else
      .ok valid_types

/-- Embedding of `OverpassQueryBuilder.build_access_filters`. -/
def build_access_filters (access_exclude : List String) : String :=
  String.join (access_exclude.map (fun a => "[\"access\"!=\"" ++ a ++ "\"]"))

/-- The `[out:json]...` header line shared by every built query. -/
def query_header : String :=
  "[out:json][timeout:" ++ toString config.query_timeout ++ "][maxsize:1073741824];"

/-- The `(south,west,north,east)` bbox suffix interpolated into bbox clauses. -/
def bbox_suffix (south west north east : ℚ) : String :=
  "(" ++ toString south ++ "," ++ toString west ++ "," ++ toString north ++ ","
    ++ toString east ++ ");"

/-- One `relation["route"=...]` clause of `build_bbox_query`. -/
def relation_clause (route_type : String) (south west north east : ℚ) : String :=
  "  relation[\"route\"=\"" ++ route_type ++ "\"]" ++ bbox_suffix south west north east

/-- One `way["highway"=...]` clause of `build_bbox_query`, carrying the
access-exclusion filters. -/
def way_clause (highway_type access_filters : String) (south west north east : ℚ) : String :=
  "  way[\"highway\"=\"" ++ highway_type ++ "\"]" ++ access_filters
    ++ bbox_suffix south west north east

/-- The clause lines appended by the `for trail_type in trail_types` loop of
`build_bbox_query`: unknown keys are skipped by the `if trail_type in
TRAIL_TYPES` guard; known keys contribute one relation clause per route value
and one way clause (with access filters) per highway value. -/
def bbox_clauses (trail_types : List String) (south west north east : ℚ) : List String :=
  trail_types.flatMap (fun trail_type =>
    match assocLookup trail_type TRAIL_TYPES with
    | none => []
    | some tags =>
      tags.route.map (fun r => relation_clause r south west north east)
        ++ tags.highway.map (fun h =>
            way_clause h (build_access_filters tags.access_exclude) south west north east))

/-- Embedding of `OverpassQueryBuilder.build_bbox_query`: coordinate
validation in source order (each `raise ValueError` embedded as
`Except.error` with the message), then the joined query document. -/
def build_bbox_query (south west north east : ℚ)
    (trail_types : Option (List String)) : Except String String :=
  let tt := trail_types.getD trailTypeKeys
  if ¬(-90 ≤ south ∧ south ≤ 90) ∨ ¬(-90 ≤ north ∧ north ≤ 90) then
    .error "Latitude must be between -90 and 90 degrees"
  else if ¬(-180 ≤ west ∧ west ≤ 180) ∨ ¬(-180 ≤ east ∧ east ≤ 180) then
    .error "Longitude must be between -180 and 180 degrees"
  else if south ≥ north then
    .error "South latitude must be less than north latitude"
  else if west ≥ east then
    .error "West longitude must be less than east longitude"
  else
    .ok (String.intercalate "\n"
      ([query_header, "("] ++ bbox_clauses tt south west north east ++ [");", "out geom;"]))

/-- One element of an Overpass response: only its `tags` dict is consumed by
the formatter and classifier (`element.get("tags", {})`). -/
structure Element where
  tags : Tags
deriving DecidableEq

/-- An Overpass response document: its `elements` array
(`data.get("elements", [])`). -/
structure OverpassData where
  elements : List Element
deriving DecidableEq

/-- Python `str.title()` as applied to the single-word category keys. -/
def pyTitle (s : String) : String := s.capitalize

/-- The `trail_info` detail line built for one classified element inside
`format_trail_data`. -/
def detail_line (tags : Tags) (name trail_type : String) : String :=
  let info := [name ++ " (" ++ pyTitle trail_type]
  let info := match tagOpt tags "distance" with
    | some d => info ++ ["Distance: " ++ d]
    | none => info
  let info := match tagOpt tags "surface" with
    | some s => info ++ ["Surface: " ++ s]
    | none => info
  let info := match tagOpt tags "difficulty" with
    | some d => info ++ ["Difficulty: " ++ d]
    | none => info
  let info := match tagOpt tags "description" with
    | some d => info ++ ["Description: " ++ d]
    | none => info
  String.intercalate " | " info ++ ")"

/-- The `formatted_trails` list of `format_trail_data`: one detail line per
element the classifier assigns a category (unclassified elements skipped). -/
def formatted_trails (elements : List Element) : List String :=
  elements.filterMap (fun e =>
    match identify_trail_type e.tags with
    | some trail_type => some (detail_line e.tags (tagGet e.tags "name" "Unnamed trail") trail_type)
    | none => none)

/-- The final count held by `trail_count[trail_type]` after the element loop
of `format_trail_data`. -/
def trail_count (elements : List Element) (trail_type : String) : Nat :=
  (elements.filter (fun e => identify_trail_type e.tags = some trail_type)).length

/-- The per-category summary lines of `format_trail_data` (zero counts
omitted, category-declaration order). -/
def count_lines (elements : List Element) : String :=
  String.join (trailTypeKeys.filterMap (fun k =>
    let c := trail_count elements k
    if c > 0 then some ("- " ++ pyTitle k ++ ": " ++ toString c ++ "\n") else none))

/-- Embedding of `format_trail_data`: the empty-result sentinel, else the
header, per-category counts, capped detail list and truncation notice. -/
def format_trail_data (data : OverpassData) : String :=
  let elements := data.elements
  if elements = [] then
    "No trails found in the specified area."
  else
    let ft := formatted_trails elements
    let summary :=
      "Found " ++ toString elements.length ++ " trail elements:\n"
        ++ count_lines elements ++ "\n"
    if ft ≠ [] then
      (summary ++ "Trail Details:\n"
        ++ String.intercalate "\n" (ft.take config.max_trails_display))
      ++ (if ft.length > config.max_trails_display then
            "\n... and " ++ toString (ft.length - config.max_trails_display) ++ " more trails"
          else "")
    else
      summary

/-- The `search_strategies` list of `search_trails_by_area_name`: three
(name, area-resolution line) pairs, park-scoped then administrative then
unscoped, over the sanitized area name. -/
def area_search_strategies (sanitized_area : String) : List (String × String) :=
  [ ("park",
      "area[\"name\"=\"" ++ sanitized_area ++ "\"][\"leisure\"=\"park\"]->.searchArea;")
  , ("administrative",
      "area[\"name\"=\"" ++ sanitized_area ++ "\"][\"boundary\"=\"administrative\"]->.searchArea;")
  , ("any",
      "area[\"name\"=\"" ++ sanitized_area ++ "\"]->.searchArea;") ]

/-- The clause lines of the per-strategy query body in
`search_trails_by_area_name` (same skip of unknown keys as the bbox builder,
clauses scoped to `area.searchArea`). -/
def area_clauses (trail_types : List String) : List String :=
  trail_types.flatMap (fun trail_type =>
    match assocLookup trail_type TRAIL_TYPES with
    | none => []
    | some tags =>
      tags.route.map (fun r => "  relation(area.searchArea)[\"route\"=\"" ++ r ++ "\"];")
        ++ tags.highway.map (fun h =>
            "  way(area.searchArea)[\"highway\"=\"" ++ h ++ "\"]"
              ++ build_access_filters tags.access_exclude ++ ";"))

/-- The full query text built for one strategy inside the loop of
`search_trails_by_area_name`. -/
def strategy_query (valid_types : List String) (area_query : String) : String :=
  String.intercalate "\n"
    ([query_header, "(", area_query, ");", "("] ++ area_clauses valid_types
      ++ [");", "out geom;"])

/-- An abstract network: maps a query string to an Overpass response or a
raised exception's text, standing in for `query_overpass`. -/
def Fetch : Type := String → Except String OverpassData

/-- Holds when a strategy round misses: its query either raised or returned
a document whose `elements` list is empty. -/
def strategy_miss (r : Except String OverpassData) : Bool :=
  match r with
  | .error _ => true
  | .ok data => data.elements.isEmpty

/-- The `for strategy_name, area_query in search_strategies` loop of
`search_trails_by_area_name`: a strategy that raises is caught (`except ...
continue`), a non-empty result is formatted and returned, an empty result
falls through, and an exhausted list yields the fixed no-results string. -/
def run_area_strategies (fetch : Fetch) (valid_types : List String) :
    List (String × String) → String
  | [] => "No trails found in the specified area after trying multiple search strategies."
  | (_, area_query) :: rest =>
    match fetch (strategy_query valid_types area_query) with
    | .error _ => run_area_strategies fetch valid_types rest
    | .ok data =>
      if data.elements.isEmpty then run_area_strategies fetch valid_types rest
      else format_trail_data data

/-- Embedding of the `search_trails_by_area_name` tool: validation, the
sanitized area name, the three-strategy loop; a validation failure is caught
by the outer handler and rendered as an error string. -/
def search_trails_by_area_name (fetch : Fetch) (area_name : String)
    (trail_types : Option (List String)) : String :=
  match validate_trail_types trail_types with
  | .error e => "Error searching trails: " ++ e
  | .ok valid_types =>
    let sanitized_area := (area_name.trim).replace "\"" "\\\""
    run_area_strategies fetch valid_types (area_search_strategies sanitized_area)

/-! ### Orchestrator (`LlmMcpConnector.process_query`) -/

/-- One content block of a reasoning-engine response: a text segment or a
tool-invocation request `{id, name, input}` (the opaque arguments carried as
a string). -/
inductive Content
  | text (s : String)
  | tool_use (id name input : String)
deriving DecidableEq, Repr

/-- One turn of the conversation history: the seeded user message, an
assistant response, or a tool-result message (role `user` with a
`tool_result` block correlated by `tool_use_id`). -/
inductive Turn
  | user (content : String)
  | assistant (content : List Content)
  | tool_result (tool_use_id content : String)
deriving DecidableEq, Repr

/-- The reasoning engine as an opaque capability: full history in, mixed
content sequence out (the `anthropic.messages.create` call). -/
def Engine : Type := List Turn → List Content

/-- The tool gateway: `mcp_client.call_tool` returning text or raising. -/
def CallTool : Type := String → String → Except String String

/-- The `tool_calls` collected from one response's content blocks. -/
def round_tool_calls (content : List Content) : List (String × String × String) :=
  content.filterMap (fun c =>
    match c with
    | .tool_use id name input => some (id, name, input)
    | .text _ => none)

/-- The `text_chunks` collected from one response's content blocks. -/
def round_text_chunks (content : List Content) : List String :=
  content.filterMap (fun c =>
    match c with
    | .text s => some s
    | .tool_use _ _ _ => none)

/-- The `for tool_call in tool_calls` loop of `process_query`: executes the
round's requests in emission order; a success appends one tool-result turn,
a failure appends the diagnostic `f"\nError calling tool {name}: {e}"` to
the round's text-chunk list instead. Returns (final text chunks, appended
tool-result turns). -/
def execute_tools (call_tool : CallTool) :
    List (String × String × String) → List String → List String × List Turn
  | [], text_chunks => (text_chunks, [])
  | (id, name, input) :: rest, text_chunks =>
    match call_tool name input with
    | .ok tool_result =>
      let (tcs, turns) := execute_tools call_tool rest text_chunks
      (tcs, Turn.tool_result id tool_result :: turns)
    | .error e =>
      execute_tools call_tool rest
        (text_chunks ++ ["\n" ++ "Error calling tool " ++ name ++ ": " ++ e])

/-- The conversation history at the start of the next round: the assistant
response appended, then one tool-result turn per successful invocation of
the round. -/
def next_history (engine : Engine) (call_tool : CallTool) (history : List Turn) : List Turn :=
  let content := engine history
  history ++ [Turn.assistant content]
    ++ (execute_tools call_tool (round_tool_calls content)
          (round_text_chunks content)).2

/-- The `while True` loop of `process_query`, fuel-indexed: a round with no
tool requests returns its text chunks newline-joined (`final_response` is
extended only there); a round with tool requests executes them and loops
(its text chunks, including failure diagnostics, are dropped on
`continue`). `none` models exceeding the fuel (the unbounded Python loop
not yet having terminated). -/
def process_query_loop (engine : Engine) (call_tool : CallTool) :
    Nat → List Turn → Option String
  | 0, _ => none
  | fuel + 1, history =>
    let content := engine history
    if (round_tool_calls content).isEmpty then
      some (String.intercalate "\n" (round_text_chunks content))
    else
      process_query_loop engine call_tool fuel (next_history engine call_tool history)

/-- Embedding of `process_query`: seeds the history with the system preamble
plus the user text and runs the round loop. -/
def process_query (engine : Engine) (call_tool : CallTool)
    (system_prompt query : String) (fuel : Nat) : Option String :=
  process_query_loop engine call_tool fuel
    [Turn.user (system_prompt ++ "\n\nUser Query: " ++ query)]

/-- The tool invocations issued across the rounds of `process_query_loop`,
in execution order (one `call_tool` call per listed request). -/
def tool_invocations (engine : Engine) (call_tool : CallTool) :
    Nat → List Turn → List (String × String × String)
  | 0, _ => []
  | fuel + 1, history =>
    let content := engine history
    if (round_tool_calls content).isEmpty then []
    else
      round_tool_calls content
        ++ tool_invocations engine call_tool fuel (next_history engine call_tool history)

/-! ### Theorems settling the claims -/

/-- C8: `validate_trail_types None` returns the full fixed category set,
`validate_trail_types([])` fails with the no-valid-categories error, and
`validate_trail_types(["hiking","bogus"])` returns exactly `["hiking"]` — a
present request is filtered to its known keys and fails only when no known
key remains. -/
theorem spec_C8 :
    validate_trail_types none = .ok ["hiking", "biking", "walking"]
    ∧ validate_trail_types (some []) =
        .error "No valid trail types specified. Use: hiking, biking, or walking"
    ∧ validate_trail_types (some ["hiking", "bogus"]) = .ok ["hiking"] :=
  ⟨rfl, rfl, rfl⟩

/-- C4: classification follows the fixed decision order — an exact route-tag
match decides first (hiking's values, then biking's, then walking's);
otherwise cycleway highway or bicycle=yes gives biking; else
footway/pedestrian highway or foot=yes gives hiking; else highway path or
track gives hiking (biking requires bicycle explicitly yes, already decided
by the earlier rule); with no match the result is none — together with the
five concrete examples of the claim. -/
theorem spec_C4 :
    (identify_trail_type [("route", "bicycle")] = some TrailType.BIKING.value)
    ∧ (identify_trail_type [("highway", "footway"), ("foot", "yes")]
        = some TrailType.HIKING.value)
    ∧ (identify_trail_type [("highway", "path"), ("bicycle", "yes")]
        = some TrailType.BIKING.value)
    ∧ (identify_trail_type [("highway", "path")] = some TrailType.HIKING.value)
    ∧ (identify_trail_type [] = none)
    ∧ (∀ tags : Tags, tagGet tags "route" "" ∈ ["hiking", "foot"] →
        identify_trail_type tags = some TrailType.HIKING.value)
    ∧ (∀ tags : Tags, tagGet tags "route" "" ∉ ["hiking", "foot"] →
        tagGet tags "route" "" ∈ ["bicycle", "mtb"] →
        identify_trail_type tags = some TrailType.BIKING.value)
    ∧ (∀ tags : Tags, tagGet tags "route" "" ∉ ["hiking", "foot"] →
        tagGet tags "route" "" ∉ ["bicycle", "mtb"] →
        tagGet tags "route" "" ∈ ["walking"] →
        identify_trail_type tags = some TrailType.WALKING.value)
    ∧ (∀ tags : Tags, tagGet tags "route" "" ∉ ["hiking", "foot"] →
        tagGet tags "route" "" ∉ ["bicycle", "mtb"] →
        tagGet tags "route" "" ∉ ["walking"] →
        (tagGet tags "highway" "" ∈ ["cycleway"] ∨ tagOpt tags "bicycle" = some "yes") →
        identify_trail_type tags = some TrailType.BIKING.value)
    ∧ (∀ tags : Tags, tagGet tags "route" "" ∉ ["hiking", "foot"] →
        tagGet tags "route" "" ∉ ["bicycle", "mtb"] →
        tagGet tags "route" "" ∉ ["walking"] →
        ¬(tagGet tags "highway" "" ∈ ["cycleway"] ∨ tagOpt tags "bicycle" = some "yes") →
        (tagGet tags "highway" "" ∈ ["footway", "pedestrian"]
          ∨ tagOpt tags "foot" = some "yes") →
        identify_trail_type tags = some TrailType.HIKING.value)
    ∧ (∀ tags : Tags, tagGet tags "route" "" ∉ ["hiking", "foot"] →
        tagGet tags "route" "" ∉ ["bicycle", "mtb"] →
        tagGet tags "route" "" ∉ ["walking"] →
        ¬(tagGet tags "highway" "" ∈ ["cycleway"] ∨ tagOpt tags "bicycle" = some "yes") →
        ¬(tagGet tags "highway" "" ∈ ["footway", "pedestrian"]
          ∨ tagOpt tags "foot" = some "yes") →
        tagGet tags "highway" "" ∈ ["path", "track"] →
        identify_trail_type tags = some TrailType.HIKING.value)
    ∧ (∀ tags : Tags, tagGet tags "route" "" ∉ ["hiking", "foot"] →
        tagGet tags "route" "" ∉ ["bicycle", "mtb"] →
        tagGet tags "route" "" ∉ ["walking"] →
        ¬(tagGet tags "highway" "" ∈ ["cycleway"] ∨ tagOpt tags "bicycle" = some "yes") →
        ¬(tagGet tags "highway" "" ∈ ["footway", "pedestrian"]
          ∨ tagOpt tags "foot" = some "yes") →
        tagGet tags "highway" "" ∉ ["path", "track"] →
        identify_trail_type tags = none) := by
  refine ⟨rfl, rfl, rfl, rfl, rfl, ?_, ?_, ?_, ?_, ?_, ?_, ?_⟩
  · intro tags h1
    simp only [identify_trail_type]
    rw [if_pos h1]
  · intro tags h1 h2
    simp only [identify_trail_type]
    rw [if_neg h1, if_pos h2]
  · intro tags h1 h2 h3
    simp only [identify_trail_type]
    rw [if_neg h1, if_neg h2, if_pos h3]
  · intro tags h1 h2 h3 h4
    simp only [identify_trail_type]
    rw [if_neg h1, if_neg h2, if_neg h3, if_pos h4]
  · intro tags h1 h2 h3 h4 h5
    simp only [identify_trail_type]
    rw [if_neg h1, if_neg h2, if_neg h3, if_neg h4, if_pos h5]
  · intro tags h1 h2 h3 h4 h5 h6
    simp only [identify_trail_type]
    rw [if_neg h1, if_neg h2, if_neg h3, if_neg h4, if_neg h5, if_pos h6]
    have hb : ¬ tagOpt tags "bicycle" = some "yes" := fun hc => h4 (Or.inr hc)
    rw [if_neg hb]
  · intro tags h1 h2 h3 h4 h5 h6
    simp only [identify_trail_type]
    rw [if_neg h1, if_neg h2, if_neg h3, if_neg h4, if_neg h5, if_neg h6]

/-- C4 witness: the route tag decides first — route foot yields hiking even
on a cycleway highway. -/
theorem spec_C4_witness :
    identify_trail_type [("route", "foot"), ("highway", "cycleway")]
      = some TrailType.HIKING.value :=
  spec_C4.2.2.2.2.2.1 [("route", "foot"), ("highway", "cycleway")] (by decide)

/-- C10 counterexample: highway "steps" is in walking's configured highway
mapping, yet `identify_trail_type` classifies an element tagged only
`highway=steps` as `none`, not hiking as the claim states. -/
theorem spec_C10_counterexample :
    (assocLookup TrailType.WALKING.value TRAIL_TYPES).map TrailTags.highway
      = some ["footway", "pedestrian", "path", "steps"]
    ∧ identify_trail_type [("highway", "steps")] = none
    ∧ identify_trail_type [("highway", "steps")] ≠ some TrailType.HIKING.value := by
  refine ⟨rfl, rfl, by decide⟩

/-- C10 amended: the classifier returns walking if and only if the tags
contain route equal to "walking" — walking is never produced from highway or
access tags alone. Other inputs matching walking's configured mapping do not
all classify as hiking: route foot, highway footway alone, highway
pedestrian alone, foot=yes alone and highway path alone give hiking, but
highway steps alone matches no highway rule and gives none. -/
theorem spec_C10_amended :
    (∀ tags : Tags,
        identify_trail_type tags = some TrailType.WALKING.value
          ↔ tagGet tags "route" "" = "walking")
    ∧ (identify_trail_type [("route", "foot")] = some TrailType.HIKING.value)
    ∧ (identify_trail_type [("highway", "footway")] = some TrailType.HIKING.value)
    ∧ (identify_trail_type [("highway", "pedestrian")] = some TrailType.HIKING.value)
    ∧ (identify_trail_type [("foot", "yes")] = some TrailType.HIKING.value)
    ∧ (identify_trail_type [("highway", "path")] = some TrailType.HIKING.value)
    ∧ (identify_trail_type [("highway", "steps")] = none) := by
  refine ⟨?_, rfl, rfl, rfl, rfl, rfl, rfl⟩
  intro tags
  simp only [identify_trail_type]
  split_ifs with h1 h2 h3 h4 h5 h6 h7
  · refine iff_of_false (by decide) ?_
    intro hr
    rw [hr] at h1
    revert h1
    decide
  · refine iff_of_false (by decide) ?_
    intro hr
    rw [hr] at h2
    revert h2
    decide
  · refine iff_of_true rfl ?_
    simpa using h3
  · refine iff_of_false (by decide) ?_
    intro hr
    exact h3 (by simp [hr])
  · refine iff_of_false (by decide) ?_
    intro hr
    exact h3 (by simp [hr])
  · refine iff_of_false (by decide) ?_
    intro hr
    exact h3 (by simp [hr])
  · refine iff_of_false (by decide) ?_
    intro hr
    exact h3 (by simp [hr])
  · refine iff_of_false (by decide) ?_
    intro hr
    exact h3 (by simp [hr])

/-- C10 witness: an element whose route tag is "walking" is classified as
walking. -/
theorem spec_C10_witness :
    identify_trail_type [("route", "walking")] = some TrailType.WALKING.value :=
  (spec_C10_amended.1 [("route", "walking")]).mpr rfl

/-- The number of filter clauses one requested category contributes: one per
configured route value plus one per configured highway value, zero for a key
outside the category table. -/
def category_clause_count (trail_type : String) : Nat :=
  match assocLookup trail_type TRAIL_TYPES with
  | none => 0
  | some tags => tags.route.length + tags.highway.length

lemma bbox_clauses_cons (t : String) (rest : List String) (s w n e : ℚ) :
    bbox_clauses (t :: rest) s w n e =
      (match assocLookup t TRAIL_TYPES with
        | none => []
        | some tags =>
          tags.route.map (fun r => relation_clause r s w n e)
            ++ tags.highway.map (fun h =>
                way_clause h (build_access_filters tags.access_exclude) s w n e))
        ++ bbox_clauses rest s w n e := by
  simp [bbox_clauses]

lemma bbox_clauses_length (tt : List String) (s w n e : ℚ) :
    (bbox_clauses tt s w n e).length = (tt.map category_clause_count).sum := by
  induction tt with
  | nil => simp [bbox_clauses]
  | cons t rest ih =>
    rw [bbox_clauses_cons]
    cases h : assocLookup t TRAIL_TYPES with
    | none => simp [h, ih, category_clause_count]
    | some tags =>
      simp [h, ih, category_clause_count]
      omega

lemma bbox_clauses_filter_known (tt : List String) (s w n e : ℚ) :
    bbox_clauses (tt.filter (fun t => (assocLookup t TRAIL_TYPES).isSome)) s w n e
      = bbox_clauses tt s w n e := by
  induction tt with
  | nil => rfl
  | cons t rest ih =>
    cases h : assocLookup t TRAIL_TYPES with
    | none =>
      rw [bbox_clauses_cons, h]
      simpa [List.filter_cons, h] using ih
    | some tags =>
      rw [bbox_clauses_cons, h]
      rw [List.filter_cons]
      simp only [h, Option.isSome_some, if_pos]
      rw [bbox_clauses_cons, h, ih]

lemma build_bbox_query_valid (s w n e : ℚ) (tt : Option (List String))
    (hs : -90 ≤ s ∧ s ≤ 90) (hn : -90 ≤ n ∧ n ≤ 90)
    (hw : -180 ≤ w ∧ w ≤ 180) (he : -180 ≤ e ∧ e ≤ 180)
    (hsn : s < n) (hwe : w < e) :
    build_bbox_query s w n e tt =
      .ok (String.intercalate "\n"
        ([query_header, "("] ++ bbox_clauses (tt.getD trailTypeKeys) s w n e
          ++ [");", "out geom;"])) := by
  have h1 : ¬(¬(-90 ≤ s ∧ s ≤ 90) ∨ ¬(-90 ≤ n ∧ n ≤ 90)) :=
    not_or.mpr ⟨not_not_intro hs, not_not_intro hn⟩
  have h2 : ¬(¬(-180 ≤ w ∧ w ≤ 180) ∨ ¬(-180 ≤ e ∧ e ≤ 180)) :=
    not_or.mpr ⟨not_not_intro hw, not_not_intro he⟩
  have h3 : ¬(s ≥ n) := not_le.mpr hsn
  have h4 : ¬(w ≥ e) := not_le.mpr hwe
  simp only [build_bbox_query]
  rw [if_neg h1, if_neg h2, if_neg h3, if_neg h4]

/-- C5: `build_bbox_query` validates in the fixed order — latitudes in
[-90, 90], then longitudes in [-180, 180], then south < north, then
west < east — each failure raising the corresponding error before any query
text is constructed, and a successfully returned document implies every
validation passed (no partial document for bad input). -/
theorem spec_C5 :
    (∀ (s w n e : ℚ) (tt : Option (List String)),
        (¬(-90 ≤ s ∧ s ≤ 90) ∨ ¬(-90 ≤ n ∧ n ≤ 90)) →
        build_bbox_query s w n e tt = .error "Latitude must be between -90 and 90 degrees")
    ∧ (∀ (s w n e : ℚ) (tt : Option (List String)),
        (-90 ≤ s ∧ s ≤ 90) → (-90 ≤ n ∧ n ≤ 90) →
        (¬(-180 ≤ w ∧ w ≤ 180) ∨ ¬(-180 ≤ e ∧ e ≤ 180)) →
        build_bbox_query s w n e tt = .error "Longitude must be between -180 and 180 degrees")
    ∧ (∀ (s w n e : ℚ) (tt : Option (List String)),
        (-90 ≤ s ∧ s ≤ 90) → (-90 ≤ n ∧ n ≤ 90) →
        (-180 ≤ w ∧ w ≤ 180) → (-180 ≤ e ∧ e ≤ 180) →
        s ≥ n →
        build_bbox_query s w n e tt = .error "South latitude must be less than north latitude")
    ∧ (∀ (s w n e : ℚ) (tt : Option (List String)),
        (-90 ≤ s ∧ s ≤ 90) → (-90 ≤ n ∧ n ≤ 90) →
        (-180 ≤ w ∧ w ≤ 180) → (-180 ≤ e ∧ e ≤ 180) →
        s < n → w ≥ e →
        build_bbox_query s w n e tt = .error "West longitude must be less than east longitude")
    ∧ (∀ (s w n e : ℚ) (tt : Option (List String)) (q : String),
        build_bbox_query s w n e tt = .ok q →
        ((-90 ≤ s ∧ s ≤ 90) ∧ (-90 ≤ n ∧ n ≤ 90)
          ∧ (-180 ≤ w ∧ w ≤ 180) ∧ (-180 ≤ e ∧ e ≤ 180) ∧ s < n ∧ w < e)) := by
  refine ⟨?_, ?_, ?_, ?_, ?_⟩
  · intro s w n e tt h
    simp only [build_bbox_query]
    rw [if_pos h]
  · intro s w n e tt hs hn h
    simp only [build_bbox_query]
    rw [if_neg (not_or.mpr ⟨not_not_intro hs, not_not_intro hn⟩), if_pos h]
  · intro s w n e tt hs hn hw he h
    simp only [build_bbox_query]
    rw [if_neg (not_or.mpr ⟨not_not_intro hs, not_not_intro hn⟩),
      if_neg (not_or.mpr ⟨not_not_intro hw, not_not_intro he⟩), if_pos h]
  · intro s w n e tt hs hn hw he hsn h
    simp only [build_bbox_query]
    rw [if_neg (not_or.mpr ⟨not_not_intro hs, not_not_intro hn⟩),
      if_neg (not_or.mpr ⟨not_not_intro hw, not_not_intro he⟩),
      if_neg (not_le.mpr hsn), if_pos h]
  · intro s w n e tt q hq
    simp only [build_bbox_query] at hq
    split_ifs at hq with h1 h2 h3 h4
    push_neg at h1 h2 h3 h4
    exact ⟨h1.1, h1.2, h2.1, h2.2, h3, h4⟩

/-- C5 witness: each validation failure observed at a concrete out-of-range
or inverted bounding box. -/
theorem spec_C5_witness :
    build_bbox_query 91 0 1 1 none = .error "Latitude must be between -90 and 90 degrees"
    ∧ build_bbox_query 0 (-181) 1 1 none =
        .error "Longitude must be between -180 and 180 degrees"
    ∧ build_bbox_query 1 0 0 1 none =
        .error "South latitude must be less than north latitude"
    ∧ build_bbox_query 0 1 1 0 none =
        .error "West longitude must be less than east longitude" :=
  ⟨spec_C5.1 91 0 1 1 none (by norm_num),
   spec_C5.2.1 0 (-181) 1 1 none (by norm_num) (by norm_num) (by norm_num),
   spec_C5.2.2.1 1 0 0 1 none (by norm_num) (by norm_num) (by norm_num) (by norm_num)
     (by norm_num),
   spec_C5.2.2.2.1 0 1 1 0 none (by norm_num) (by norm_num) (by norm_num) (by norm_num)
     (by norm_num) (by norm_num)⟩

/-- C6 counterexample: given a trail_types list containing a key outside the
fixed category table, `build_bbox_query` does not fail loudly — it silently
skips the unknown key and returns a well-formed (clause-free) document. -/
theorem spec_C6_counterexample :
    build_bbox_query 0 0 1 1 (some ["bogus"]) =
      .ok "[out:json][timeout:30][maxsize:1073741824];\n(\n);\nout geom;" := rfl

/-- C6 amended: unknown category keys are silently dropped both by the
category-validation step and by the query builder itself — the `if
trail_type in TRAIL_TYPES` guard skips any unlisted key, so the builder's
output equals that for the known-key sublist and the builder never fails on
account of unknown keys (for valid coordinates it succeeds). -/
theorem spec_C6_amended :
    (∀ (s w n e : ℚ) (tt : List String),
        build_bbox_query s w n e (some tt) =
          build_bbox_query s w n e
            (some (tt.filter (fun t => (assocLookup t TRAIL_TYPES).isSome))))
    ∧ (∀ (ts : List String) (t : String) (vt : List String),
        (assocLookup t TRAIL_TYPES).isSome = false →
        validate_trail_types (some ts) = .ok vt →
        t ∉ vt)
    ∧ (∀ (s w n e : ℚ) (tt : List String),
        (-90 ≤ s ∧ s ≤ 90) → (-90 ≤ n ∧ n ≤ 90) →
        (-180 ≤ w ∧ w ≤ 180) → (-180 ≤ e ∧ e ≤ 180) →
        s < n → w < e →
        ∃ q, build_bbox_query s w n e (some tt) = .ok q) := by
  refine ⟨?_, ?_, ?_⟩
  · intro s w n e tt
    simp only [build_bbox_query, Option.getD_some]
    rw [bbox_clauses_filter_known]
  · intro ts t vt hunknown hval hmem
    simp only [validate_trail_types] at hval
    split_ifs at hval with h0
    cases hval
    have := List.of_mem_filter hmem
    rw [hunknown] at this
    exact Bool.false_ne_true this
  · intro s w n e tt hs hn hw he hsn hwe
    exact ⟨_, build_bbox_query_valid s w n e (some tt) hs hn hw he hsn hwe⟩

/-- C6 witness: the builder's output with an unknown key present equals its
output on the known-key sublist, and the builder succeeds on a mixed list at
a valid bounding box. -/
theorem spec_C6_witness :
    build_bbox_query 0 0 1 1 (some ["hiking", "bogus"]) =
      build_bbox_query 0 0 1 1
        (some (["hiking", "bogus"].filter (fun t => (assocLookup t TRAIL_TYPES).isSome)))
    ∧ ∃ q, build_bbox_query 0 0 1 1 (some ["hiking", "bogus"]) = .ok q :=
  ⟨spec_C6_amended.1 0 0 1 1 ["hiking", "bogus"],
   spec_C6_amended.2.2 0 0 1 1 ["hiking", "bogus"] (by norm_num) (by norm_num)
     (by norm_num) (by norm_num) (by norm_num) (by norm_num)⟩

/-- C7: for every valid bounding box the builder succeeds, the clause list
contains exactly one filter clause per configured tag value of each
requested category (route values and highway values, in declaration order,
unioned into one query), and every way/highway clause of a requested
category carries that category's access-exclusion filters. -/
theorem spec_C7 :
    ∀ (s w n e : ℚ) (tt : List String),
    (-90 ≤ s ∧ s ≤ 90) → (-90 ≤ n ∧ n ≤ 90) →
    (-180 ≤ w ∧ w ≤ 180) → (-180 ≤ e ∧ e ≤ 180) →
    s < n → w < e →
    (build_bbox_query s w n e (some tt) =
        .ok (String.intercalate "\n"
          ([query_header, "("] ++ bbox_clauses tt s w n e ++ [");", "out geom;"])))
    ∧ ((bbox_clauses tt s w n e).length = (tt.map category_clause_count).sum)
    ∧ (∀ (t : String) (tags : TrailTags), t ∈ tt →
        assocLookup t TRAIL_TYPES = some tags →
        (∀ r ∈ tags.route, relation_clause r s w n e ∈ bbox_clauses tt s w n e)
        ∧ (∀ h ∈ tags.highway,
            way_clause h (build_access_filters tags.access_exclude) s w n e
              ∈ bbox_clauses tt s w n e)) := by
  intro s w n e tt hs hn hw he hsn hwe
  refine ⟨build_bbox_query_valid s w n e (some tt) hs hn hw he hsn hwe,
    bbox_clauses_length tt s w n e, ?_⟩
  intro t tags ht htags
  constructor
  · intro r hr
    refine List.mem_flatMap.mpr ⟨t, ht, ?_⟩
    rw [htags]
    exact List.mem_append_left _ (List.mem_map_of_mem _ hr)
  · intro h hh
    refine List.mem_flatMap.mpr ⟨t, ht, ?_⟩
    rw [htags]
    exact List.mem_append_right _ (List.mem_map_of_mem _ hh)

/-- C7 witness: at a concrete valid bounding box with the hiking category
requested, the builder succeeds with the unioned document, the clause count
matches the configured tag values, and a concrete relation clause and
access-filtered way clause are present. -/
theorem spec_C7_witness :
    (build_bbox_query 0 0 1 1 (some ["hiking"]) =
        .ok (String.intercalate "\n"
          ([query_header, "("] ++ bbox_clauses ["hiking"] 0 0 1 1 ++ [");", "out geom;"])))
    ∧ ((bbox_clauses ["hiking"] 0 0 1 1).length
        = (["hiking"].map category_clause_count).sum)
    ∧ relation_clause "hiking" 0 0 1 1 ∈ bbox_clauses ["hiking"] 0 0 1 1
    ∧ way_clause "footway" (build_access_filters ["private", "no"]) 0 0 1 1
        ∈ bbox_clauses ["hiking"] 0 0 1 1 := by
  have h := spec_C7 0 0 1 1 ["hiking"] (by norm_num) (by norm_num) (by norm_num)
    (by norm_num) (by norm_num) (by norm_num)
  have hmem := h.2.2 "hiking"
    { route := ["hiking", "foot"]
      highway := ["footway", "path", "track", "bridleway", "steps"]
      foot := some "yes"
      bicycle := none
      access_exclude := ["private", "no"] }
    (by decide) (by decide)
  exact ⟨h.1, h.2.1, hmem.1 "hiking" (by decide), hmem.2 "footway" (by decide)⟩

/-- C9: `format_trail_data` on an empty element list returns the fixed
no-results sentinel exactly; on input whose detail-line list exceeds the
display cap, the output ends with a truncation notice whose count equals the
number of detail lines minus the cap. -/
theorem spec_C9 :
    (format_trail_data ⟨[]⟩ = "No trails found in the specified area.")
    ∧ (∀ data : OverpassData,
        (formatted_trails data.elements).length > config.max_trails_display →
        ∃ p : String,
          format_trail_data data =
            p ++ ("\n... and "
              ++ toString ((formatted_trails data.elements).length
                    - config.max_trails_display)
              ++ " more trails")) := by
  refine ⟨rfl, ?_⟩
  intro data hcap
  have he : data.elements ≠ [] := by
    intro h0
    rw [h0] at hcap
    simp [formatted_trails, config] at hcap
  have hft : formatted_trails data.elements ≠ [] := by
    intro h0
    rw [h0] at hcap
    simp [config] at hcap
  simp only [format_trail_data]
  rw [if_neg he, if_pos hft, if_pos hcap]
  exact ⟨_, rfl⟩

/-- C9 witness: 51 classifiable elements exceed the display cap of 50 and the
output ends with a truncation notice counting the one omitted line. -/
theorem spec_C9_witness :
    (formatted_trails (List.replicate 51 (⟨[("highway", "cycleway")]⟩ : Element))).length
        > config.max_trails_display
    ∧ ∃ p : String,
        format_trail_data ⟨List.replicate 51 ⟨[("highway", "cycleway")]⟩⟩ =
          p ++ ("\n... and "
            ++ toString ((formatted_trails
                  (List.replicate 51 (⟨[("highway", "cycleway")]⟩ : Element))).length
                  - config.max_trails_display)
            ++ " more trails") :=
  ⟨by decide, spec_C9.2 ⟨List.replicate 51 ⟨[("highway", "cycleway")]⟩⟩ (by decide)⟩

lemma run_area_strategies_all_miss (fetch : Fetch) (valid_types : List String)
    (hmiss : ∀ q, strategy_miss (fetch q) = true) :
    ∀ strategies, run_area_strategies fetch valid_types strategies =
      "No trails found in the specified area after trying multiple search strategies." := by
  intro strategies
  induction strategies with
  | nil => rfl
  | cons strat rest ih =>
    obtain ⟨sn, aq⟩ := strat
    have h := hmiss (strategy_query valid_types aq)
    simp only [run_area_strategies]
    cases hf : fetch (strategy_query valid_types aq) with
    | error e => exact ih
    | ok data =>
      rw [hf] at h
      simp only [strategy_miss] at h
      simpa [h] using ih

/-- C2 counterexample: when every strategy throws, the area-search tool
returns its own fixed no-results string, which is not the formatter's
empty-result sentinel. -/
theorem spec_C2_counterexample :
    search_trails_by_area_name (fun _ => .error "network unreachable") "Central Park" none
      = "No trails found in the specified area after trying multiple search strategies."
    ∧ format_trail_data ⟨[]⟩ = "No trails found in the specified area."
    ∧ search_trails_by_area_name (fun _ => .error "network unreachable") "Central Park" none
        ≠ format_trail_data ⟨[]⟩ :=
  ⟨rfl, rfl, by decide⟩

/-- C2 amended: the area-search tool tries exactly three area-resolution
strategies in order (park-scoped, administrative-boundary-scoped, unscoped
match by name), returns the formatted result of the first strategy whose
query yields at least one element, treats a strategy that throws (or returns
no elements) as a miss and proceeds to the next strategy, and if all three
strategies miss it returns the fixed string "No trails found in the
specified area after trying multiple search strategies." — a no-results
message distinct from the formatter's empty-result sentinel — rather than
raising. -/
theorem spec_C2_amended :
    (∀ a : String, area_search_strategies a =
        [ ("park", "area[\"name\"=\"" ++ a ++ "\"][\"leisure\"=\"park\"]->.searchArea;")
        , ("administrative",
            "area[\"name\"=\"" ++ a ++ "\"][\"boundary\"=\"administrative\"]->.searchArea;")
        , ("any", "area[\"name\"=\"" ++ a ++ "\"]->.searchArea;") ])
    ∧ (∀ (fetch : Fetch) (vt : List String) (strat : String × String)
          (rest : List (String × String)),
        strategy_miss (fetch (strategy_query vt strat.2)) = true →
        run_area_strategies fetch vt (strat :: rest) = run_area_strategies fetch vt rest)
    ∧ (∀ (fetch : Fetch) (vt : List String) (strat : String × String)
          (rest : List (String × String)) (data : OverpassData),
        fetch (strategy_query vt strat.2) = .ok data → data.elements ≠ [] →
        run_area_strategies fetch vt (strat :: rest) = format_trail_data data)
    ∧ (∀ (fetch : Fetch) (area : String) (tt : Option (List String)) (vt : List String),
        validate_trail_types tt = .ok vt →
        (∀ q, strategy_miss (fetch q) = true) →
        search_trails_by_area_name fetch area tt =
          "No trails found in the specified area after trying multiple search strategies.") := by
  refine ⟨fun a => rfl, ?_, ?_, ?_⟩
  · intro fetch vt strat rest hmiss
    obtain ⟨sn, aq⟩ := strat
    simp only [run_area_strategies]
    cases hf : fetch (strategy_query vt aq) with
    | error e => rfl
    | ok data =>
      rw [hf] at hmiss
      simp only [strategy_miss] at hmiss
      simp [hmiss]
  · intro fetch vt strat rest data hf hne
    obtain ⟨sn, aq⟩ := strat
    simp only [run_area_strategies]
    rw [hf]
    simp [List.isEmpty_iff, hne]
  · intro fetch area tt vt hval hmiss
    simp only [search_trails_by_area_name]
    rw [hval]
    exact run_area_strategies_all_miss fetch vt hmiss _

/-- C2 witness: with a network that always returns an element-free document,
the area-search tool over all categories returns the fixed no-results
string. -/
theorem spec_C2_witness :
    search_trails_by_area_name (fun _ => .ok ⟨[]⟩) "Yosemite" none =
      "No trails found in the specified area after trying multiple search strategies." :=
  spec_C2_amended.2.2.2 (fun _ => .ok ⟨[]⟩) "Yosemite" none trailTypeKeys rfl (fun _ => rfl)

/-- Whether a requested invocation succeeds against the gateway. -/
def call_succeeded (call_tool : CallTool) (c : String × String × String) : Bool :=
  match call_tool c.2.1 c.2.2 with
  | .ok _ => true
  | .error _ => false

lemma execute_tools_chunks_mono (call_tool : CallTool)
    (calls : List (String × String × String)) :
    ∀ (text_chunks : List String) (x : String), x ∈ text_chunks →
      x ∈ (execute_tools call_tool calls text_chunks).1 := by
  induction calls with
  | nil => intro tcs x hx; exact hx
  | cons c rest ih =>
    intro tcs x hx
    obtain ⟨id, name, input⟩ := c
    simp only [execute_tools]
    cases hc : call_tool name input with
    | ok r => exact ih tcs x hx
    | error e => exact ih _ x (List.mem_append_left _ hx)

lemma process_query_loop_tool_round (engine : Engine) (call_tool : CallTool)
    (fuel : Nat) (history : List Turn)
    (h : (round_tool_calls (engine history)).isEmpty = false) :
    process_query_loop engine call_tool (fuel + 1) history
      = process_query_loop engine call_tool fuel (next_history engine call_tool history) := by
  simp only [process_query_loop]
  rw [if_neg (by simp [h])]

lemma process_query_loop_final_round (engine : Engine) (call_tool : CallTool)
    (fuel : Nat) (history : List Turn)
    (h : round_tool_calls (engine history) = []) :
    process_query_loop engine call_tool (fuel + 1) history
      = some (String.intercalate "\n" (round_text_chunks (engine history))) := by
  simp only [process_query_loop]
  rw [if_pos (by simp [h])]

/-- C1: a tool invocation that raises during a round is caught
per-invocation — its diagnostic string (containing the tool name and the
error text) is appended to that round's deferred text-chunk list; a
tool-result turn is produced only for, and exactly once per, successful
invocation, so the failure adds none; and a round containing tool calls
always proceeds to request another round (with the successful results
appended) rather than aborting the query. -/
theorem spec_C1 :
    (∀ (call_tool : CallTool) (calls : List (String × String × String))
        (text_chunks : List String) (id name input e : String),
        (id, name, input) ∈ calls → call_tool name input = .error e →
        ("\n" ++ "Error calling tool " ++ name ++ ": " ++ e)
          ∈ (execute_tools call_tool calls text_chunks).1)
    ∧ (∀ (call_tool : CallTool) (calls : List (String × String × String))
          (text_chunks : List String),
        (execute_tools call_tool calls text_chunks).2.length
          = (calls.filter (call_succeeded call_tool)).length)
    ∧ (∀ (call_tool : CallTool) (calls : List (String × String × String))
          (text_chunks : List String) (id r : String),
        Turn.tool_result id r ∈ (execute_tools call_tool calls text_chunks).2 →
        ∃ name input, (id, name, input) ∈ calls ∧ call_tool name input = .ok r)
    ∧ (∀ (engine : Engine) (call_tool : CallTool) (fuel : Nat) (history : List Turn),
        (round_tool_calls (engine history)).isEmpty = false →
        process_query_loop engine call_tool (fuel + 1) history
          = process_query_loop engine call_tool fuel
              (next_history engine call_tool history)) := by
  refine ⟨?_, ?_, ?_, process_query_loop_tool_round⟩
  · intro call_tool calls
    induction calls with
    | nil => intro tcs id name input e hmem; exact absurd hmem (List.not_mem_nil _)
    | cons c rest ih =>
      intro tcs id name input e hmem herr
      obtain ⟨cid, cname, cinput⟩ := c
      rcases List.mem_cons.mp hmem with hhd | htl
      · simp only [Prod.mk.injEq] at hhd
        obtain ⟨rfl, rfl, rfl⟩ := hhd
        simp only [execute_tools, herr]
        exact execute_tools_chunks_mono call_tool rest _ _
          (List.mem_append_right _ (List.mem_singleton.mpr rfl))
      · cases hc : call_tool cname cinput with
        | ok r =>
          simp only [execute_tools, hc]
          exact ih tcs id name input e htl herr
        | error e2 =>
          simp only [execute_tools, hc]
          exact ih _ id name input e htl herr
  · intro call_tool calls
    induction calls with
    | nil => intro tcs; rfl
    | cons c rest ih =>
      intro tcs
      obtain ⟨cid, cname, cinput⟩ := c
      cases hc : call_tool cname cinput with
      | ok r => simp [execute_tools, List.filter_cons, call_succeeded, hc, ih]
      | error e => simp [execute_tools, List.filter_cons, call_succeeded, hc, ih]
  · intro call_tool calls
    induction calls with
    | nil =>
      intro tcs id r hmem
      exact absurd hmem (List.not_mem_nil _)
    | cons c rest ih =>
      intro tcs id r hmem
      obtain ⟨cid, cname, cinput⟩ := c
      cases hc : call_tool cname cinput with
      | ok res =>
        simp only [execute_tools, hc, List.mem_cons] at hmem
        rcases hmem with hhd | htl
        · simp only [Turn.tool_result.injEq] at hhd
          obtain ⟨rfl, rfl⟩ := hhd
          exact ⟨cname, cinput, List.mem_cons_self _ _, hc⟩
        · obtain ⟨name, input, hmem2, hok⟩ := ih tcs id r htl
          exact ⟨name, input, List.mem_cons_of_mem _ hmem2, hok⟩
      | error e =>
        simp only [execute_tools, hc] at hmem
        obtain ⟨name, input, hmem2, hok⟩ := ih _ id r hmem
        exact ⟨name, input, List.mem_cons_of_mem _ hmem2, hok⟩

/-- C1 witness: a single failing invocation's diagnostic, containing the
tool name and error text, appears in the round's deferred text-chunk list,
and its round produces zero tool-result turns. -/
theorem spec_C1_witness :
    ("\n" ++ "Error calling tool " ++ "search_trails_by_area_name" ++ ": " ++ "boom")
      ∈ (execute_tools (fun _ _ => .error "boom")
          [("toolu_1", "search_trails_by_area_name", "Denver")] []).1
    ∧ (execute_tools (fun _ _ => .error "boom")
          [("toolu_1", "search_trails_by_area_name", "Denver")] []).2.length
        = ([("toolu_1", "search_trails_by_area_name", "Denver")].filter
            (call_succeeded (fun _ _ => .error "boom"))).length :=
  ⟨spec_C1.1 (fun _ _ => .error "boom") [("toolu_1", "search_trails_by_area_name", "Denver")]
      [] "toolu_1" "search_trails_by_area_name" "Denver" "boom"
      (List.mem_singleton.mpr rfl) rfl,
   spec_C1.2.1 (fun _ _ => .error "boom")
      [("toolu_1", "search_trails_by_area_name", "Denver")] []⟩

/-- A scripted reasoning engine: the seeded (length-one) history gets one
round with a text segment and a single tool-invocation request, every later
round is text-only. -/
def scripted_engine : Engine := fun history =>
  if history.length ≤ 1 then
    [ Content.text "Let me search for trails."
    , Content.tool_use "toolu_1" "search_trails_by_area_name" "Denver" ]
  else
    [ Content.text "Here are the trails I found.", Content.text "Enjoy your hike!" ]

/-- A scripted tool gateway that always succeeds with a fixed payload. -/
def scripted_tool : CallTool := fun _ _ => .ok "TRAIL DATA"

/-- C3: `process_query` terminates exactly when a round produces zero
tool-invocation requests, returning that terminal round's text chunks
newline-joined (a round with requests instead loops, so earlier rounds'
text never reaches the result); for the scripted engine emitting one
tool-call round then a text-only round, exactly one tool invocation is
issued and the terminal round's text is returned newline-joined. -/
theorem spec_C3 :
    (∀ (engine : Engine) (call_tool : CallTool) (fuel : Nat) (history : List Turn),
        round_tool_calls (engine history) = [] →
        process_query_loop engine call_tool (fuel + 1) history
          = some (String.intercalate "\n" (round_text_chunks (engine history))))
    ∧ (∀ (engine : Engine) (call_tool : CallTool) (fuel : Nat) (history : List Turn),
        round_tool_calls (engine history) ≠ [] →
        process_query_loop engine call_tool (fuel + 1) history
          = process_query_loop engine call_tool fuel
              (next_history engine call_tool history))
    ∧ (process_query scripted_engine scripted_tool "SYSTEM" "Find trails near Denver" 2
        = some "Here are the trails I found.\nEnjoy your hike!")
    ∧ (tool_invocations scripted_engine scripted_tool 2
          [Turn.user ("SYSTEM" ++ "\n\nUser Query: " ++ "Find trails near Denver")]
        = [("toolu_1", "search_trails_by_area_name", "Denver")]) := by
  refine ⟨process_query_loop_final_round, ?_, rfl, rfl⟩
  intro engine call_tool fuel history h
  exact process_query_loop_tool_round engine call_tool fuel history
    (by simpa [List.isEmpty_iff] using h)

/-- C3 witness: a text-only round terminates the loop at once with its
newline-joined text. -/
theorem spec_C3_witness :
    process_query_loop (fun _ => [Content.text "All done."]) scripted_tool 1 []
      = some (String.intercalate "\n"
          (round_text_chunks [Content.text "All done."])) :=
  spec_C3.1 (fun _ => [Content.text "All done."]) scripted_tool 0 [] rfl

end TrailExplorer
